import Mathlib

/-!
Verification of the CLN gRPC Lightning-node adapter
(`app/lightning/impl/cln_grpc.py`, class `LnNodeCLNgRPC`).

This file shallowly embeds the parts of the adapter that the verified
properties talk about:

* the query/listing engine (`list_all_tx`, `list_invoices`, `list_payments`):
  filter loops, stable ascending sort by timestamp, post-sort reversal,
  post-sort 0-based index assignment, and `[offset : offset + limit]` slicing;
* the connection manager (`initialize`): the idempotence guard, credential
  parsing, the liveness-check retry loop with its OFFLINE backoff path,
  the fatal re-raise path, and the swallowed generic-exception path;
* the error classifiers of `send_coins` and `connect_peer`;
* the forwarding-event polling loop (`listen_forward_events`);
* `unlock_wallet` and the local precondition checks of `send_coins`.

Backend record translators (`GenericTx.from_cln_grpc_invoice`,
`Invoice.from_cln_grpc`, `Payment.from_cln_grpc`,
`ForwardSuccessEvent.from_cln_grpc`) live in `app/lightning/models.py`; the
listing and polling properties below are independent of their internals, so
records are modelled as already-translated values carrying exactly the fields
the adapter reads (timestamp, status, and an opaque payload identifier), and
translation is the evident wrapper.
-/

/-- Substring matching: does `p` occur as a prefix of `s`?  Helper for
`hasSubstr` below. -/
def matchesAt : List Char → List Char → Bool
  | [], _ => true
  | _ :: _, [] => false
  | a :: p, b :: s => a == b && matchesAt p s

/-- Helper for `hasSubstr`: does the pattern occur anywhere in the text? -/
def hasSubAux (p : List Char) : List Char → Bool
  | [] => matchesAt p []
  | b :: s => matchesAt p (b :: s) || hasSubAux p s

/-- `hasSubstr s pat` models Python's `pat in s` and `s.find(pat) > -1`. -/
def hasSubstr (s pat : String) : Bool :=
  hasSubAux pat.toList s.toList

/-- Status of a `GenericTx` timeline entry (`app.lightning.models.TxStatus`). -/
inductive TxStatus
  | unknown
  | in_flight
  | succeeded
  | failed
deriving DecidableEq, Repr

/-- The backend-agnostic timeline entry produced by `list_all_tx`
(`app.lightning.models.GenericTx`).  Only the fields the adapter's listing
logic reads or writes are modelled: `time_stamp` (the sort key), `status`
(the filter key) and `index` (assigned post-sort).  All remaining payload
fields (amount, comment, ...) are condensed into the opaque `payload`
identifier, which the listing code never inspects. -/
structure GenericTx where
  time_stamp : Int
  status : TxStatus
  index : Nat
  payload : Nat
deriving DecidableEq, Repr

/-- One pass of the append loops in `list_all_tx` (source lines 276-309).
The source reads, for each decoded record:

    if successful_only and i.status == TxStatus.SUCCEEDED:
        tx.append(i)
        continue
    tx.append(i)

Both paths append the record, so the `successful_only` flag never filters
anything out; the guarded branch appends and then `continue`s to the next
record, and the fall-through appends as well. -/
def appendFiltered (successful_only : Bool) (recs : List GenericTx)
    (tx : List GenericTx) : List GenericTx :=
  recs.foldl
    (fun acc r =>
      if successful_only ∧ r.status = TxStatus.succeeded then acc ++ [r]
      else acc ++ [r])
    tx

/-- Insert a record into an already-sorted (ascending by `time_stamp`) list,
after every element whose timestamp is `≤` the new one.  Folding this over a
list from the left yields a stable ascending sort, the semantics of Python's
`tx.sort(key=lambda e: e.time_stamp)`. -/
def insertTx (t : GenericTx) : List GenericTx → List GenericTx
  | [] => [t]
  | u :: us => if u.time_stamp ≤ t.time_stamp then u :: insertTx t us
               else t :: u :: us

/-- Stable ascending sort by `time_stamp`: models `tx.sort(key=sortKey)`
(source lines 311-314). -/
def sortStable (tx : List GenericTx) : List GenericTx :=
  tx.foldl (fun acc t => insertTx t acc) []

/-- Post-sort index assignment (source lines 319-321):

    for invoice in range(tx_length):
        tx[invoice].index = invoice
-/
def assignIdx (tx : List GenericTx) : List GenericTx :=
  tx.enum.map (fun p => { p.2 with index := p.1 })

/-- The final ordered sequence of `list_all_tx` before slicing: the three
append loops (invoices, on-chain transactions, payments, in source order),
the stable ascending sort, the optional reversal, and the 0-based index
assignment (source lines 275-321). -/
def listAllTxPipeline (successful_only : Bool) (rev : Bool)
    (invoices onchain pays : List GenericTx) : List GenericTx :=
  let tx := appendFiltered successful_only invoices []
  let tx := appendFiltered successful_only onchain tx
  let tx := appendFiltered successful_only pays tx
  let tx := sortStable tx
  let tx := if rev then tx.reverse else tx
  assignIdx tx

/-- `LnNodeCLNgRPC.list_all_tx` (source lines 252-326), on already-fetched
and already-translated record sets.  After the pipeline, the source sets
`max_tx = tx_length` when `max_tx == 0` and returns the Python slice
`tx[index_offset : index_offset + max_tx]`, i.e. drop-then-take. -/
def listAllTx (successful_only : Bool) (index_offset max_tx : Nat)
    (rev : Bool) (invoices onchain pays : List GenericTx) : List GenericTx :=
  let tx := listAllTxPipeline successful_only rev invoices onchain pays
  let m := if max_tx = 0 then tx.length else max_tx
  (tx.drop index_offset).take m

/-- A CLN invoice record as read by `list_invoices`: the adapter only
branches on `i.status` (`0` meaning unpaid/pending); everything else is the
opaque `payload`.  `Invoice.from_cln_grpc` (in `app.lightning.models`, a
per-record translation) is modelled as the identity on these records. -/
structure ClnInvoiceRec where
  status : Nat
  payload : Nat
deriving DecidableEq, Repr

/-- The filtered, optionally reversed invoice sequence of `list_invoices`
before slicing (source lines 344-353). -/
def listInvoicesPipeline (pending_only : Bool) (rev : Bool)
    (invoices : List ClnInvoiceRec) : List ClnInvoiceRec :=
  let tx := invoices.foldl
    (fun acc i =>
      if pending_only then (if i.status = 0 then acc ++ [i] else acc)
      else acc ++ [i])
    []
  if rev then tx.reverse else tx

/-- `LnNodeCLNgRPC.list_invoices` (source lines 330-358).  When
`num_max_invoices == 0` the source returns `tx` directly — the offset is
ignored; otherwise it returns `tx[index_offset : index_offset + num_max_invoices]`. -/
def listInvoices (pending_only : Bool) (index_offset num_max_invoices : Nat)
    (rev : Bool) (invoices : List ClnInvoiceRec) : List ClnInvoiceRec :=
  let tx := listInvoicesPipeline pending_only rev invoices
  if num_max_invoices = 0 then tx
  else (tx.drop index_offset).take num_max_invoices

/-- A CLN pay record as read by `list_payments`: the adapter only branches
on `p.status` (`2` meaning complete); `Payment.from_cln_grpc` is modelled as
the identity. -/
structure ClnPayRec where
  status : Nat
  payload : Nat
deriving DecidableEq, Repr

/-- The filtered, optionally reversed payment sequence of `list_payments`
before slicing (source lines 459-470). -/
def listPaymentsPipeline (include_incomplete : Bool) (rev : Bool)
    (pays : List ClnPayRec) : List ClnPayRec :=
  let ps := pays.foldl
    (fun acc p =>
      if p.status = 2 then acc ++ [p]
      else if include_incomplete then acc ++ [p] else acc)
    []
  if rev then ps.reverse else ps

/-- `LnNodeCLNgRPC.list_payments` (source lines 440-475).  When
`max_payments == 0` the source returns `pays` directly — the offset is
ignored; otherwise it returns the slice. -/
def listPayments (include_incomplete : Bool) (index_offset max_payments : Nat)
    (rev : Bool) (pays : List ClnPayRec) : List ClnPayRec :=
  let ps := listPaymentsPipeline include_incomplete rev pays
  if max_payments = 0 then ps
  else (ps.drop index_offset).take max_payments

example : listAllTx true 0 0 false [] [] [⟨5, TxStatus.failed, 0, 9⟩]
    = [⟨5, TxStatus.failed, 0, 9⟩] := by decide

example : listAllTx false 0 0 false [⟨1, TxStatus.succeeded, 0, 1⟩]
    [⟨2, TxStatus.succeeded, 0, 2⟩] [⟨3, TxStatus.succeeded, 0, 3⟩]
    = [⟨1, TxStatus.succeeded, 0, 1⟩, ⟨2, TxStatus.succeeded, 1, 2⟩,
       ⟨3, TxStatus.succeeded, 2, 3⟩] := by decide

example : listInvoices false 5 0 false [⟨1, 1⟩, ⟨1, 2⟩] = [⟨1, 1⟩, ⟨1, 2⟩] := by
  decide

/-! ## Connection manager (`initialize`, source lines 116-186) -/

/-- Lifecycle states used by `initialize`
(`app.lightning.models.LnInitState`; only the two states this adapter
emits are modelled). -/
inductive LnInitState
  | offline
  | done
deriving DecidableEq, Repr

/-- A lifecycle update yielded by `initialize`
(`app.lightning.models.InitLnRepoUpdate`): a state plus an optional
message. -/
structure InitLnRepoUpdate where
  state : LnInitState
  msg : Option String
deriving DecidableEq, Repr

/-- Outcome of one liveness attempt of the connection loop: the
`Getinfo` RPC either succeeds, fails with a `grpc.aio` `AioRpcError`
carrying a detail string, or the attempt raises some other exception. -/
inductive ClnAttemptOutcome
  | ok
  | aioError (details : String)
  | otherExc (msg : String)
deriving DecidableEq, Repr

/-- Decode one hexadecimal digit (models a step of Python's
`bytes.fromhex`). -/
def hexDigit? (c : Char) : Option Nat :=
  if '0' ≤ c ∧ c ≤ '9' then some (c.toNat - '0'.toNat)
  else if 'a' ≤ c ∧ c ≤ 'f' then some (c.toNat - 'a'.toNat + 10)
  else if 'A' ≤ c ∧ c ≤ 'F' then some (c.toNat - 'A'.toNat + 10)
  else none

/-- `bytes.fromhex`: pairs of hex digits, `none` on any malformed input
(the `ValueError` path of the source). -/
def hexBytes? : List Char → Option (List Nat)
  | [] => some []
  | [_] => none
  | a :: b :: rest =>
    match hexDigit? a, hexDigit? b, hexBytes? rest with
    | some hi, some lo, some r => some ((hi * 16 + lo) :: r)
    | _, _, _ => none

/-- The credential configuration read by `initialize` (source lines
128-138).  `config`/`config_get_hex_str` are external collaborators;
the hex strings are taken as given and `config_get_hex_str` is modelled
as the identity. -/
structure ClnConfig where
  cln_grpc_key : String
  cln_grpc_cert : String
  cln_grpc_ca : String
  cln_grpc_ip : String
  cln_grpc_port : String
deriving DecidableEq, Repr

/-- Parsed transport credentials (`self.creds` plus the target URL). -/
structure ClnCreds where
  key : List Nat
  cert : List Nat
  ca : List Nat
  url : String
deriving DecidableEq, Repr

/-- The credential-parsing prologue of `initialize` (source lines
128-147): hex-decode key, cert and CA and build the URL; any decode
failure is the `ValueError` branch, which calls `sys.exit(0)`. -/
def parseClnCreds (cfg : ClnConfig) : Option ClnCreds :=
  match hexBytes? cfg.cln_grpc_key.toList, hexBytes? cfg.cln_grpc_cert.toList,
      hexBytes? cfg.cln_grpc_ca.toList with
  | some k, some c, some a =>
    some ⟨k, c, a, cfg.cln_grpc_ip ++ ":" ++ cfg.cln_grpc_port⟩
  | _, _, _ => none

/-- The adapter's connection-relevant instance state.  Transport handles
are identified by creation order (`nextChannelId` is the counter): the
source's `self._channel` and `self._cln_stub` hold, when present, the id
of the channel they were created from, so "a fresh handle was created"
is visible as a new id. -/
structure NodeState where
  initialized : Bool
  channel : Option Nat
  cln_stub : Option Nat
  creds : Option ClnCreds
  nextChannelId : Nat
deriving DecidableEq, Repr

/-- Observable trace of one full consumption of the `initialize`
generator: the yielded updates, how many `Getinfo` liveness RPCs were
issued, how many transport channels were created, the backoff sleeps (in
the source's time units) in order, the values of the `_channel` and
`_cln_stub` fields at each backoff sleep, the detail of a re-raised
fatal `AioRpcError` (if any), and whether `sys.exit` was reached. -/
structure InitTrace where
  updates : List InitLnRepoUpdate
  getinfoCalls : Nat
  channelsCreated : Nat
  sleeps : List Nat
  channelAtSleep : List (Option Nat)
  stubAtSleep : List (Option Nat)
  raised : Option String
  exited : Bool
deriving DecidableEq, Repr

/-- The empty trace. -/
def InitTrace.empty : InitTrace := ⟨[], 0, 0, [], [], [], none, false⟩

/-- The detail substring that classifies a liveness failure as OFFLINE
(source line 170). -/
def offlineDetail : String := "failed to connect to all addresses"

/-- The `while not self._initialized` loop of `initialize` (source lines
154-184), driven by a schedule of liveness-attempt outcomes.  Each
iteration: if `self._channel is None`, create a fresh channel and stub
(lines 157-161); issue `Getinfo`.  On success set `initialized` and
yield DONE.  On an `AioRpcError` whose detail contains `offlineDetail`:
yield OFFLINE, close the channel and run the source's line 177
`self._channel = self.cln_stub = None` — which clears `_channel` but,
because the second target misspells the `_cln_stub` attribute, leaves
`_cln_stub` holding the old stub — then sleep 2 and retry.  On any other
`AioRpcError`: re-raise (fatal).  On any other exception (`except
Exception`, lines 183-184): log and fall through — the loop retries
immediately, without a sleep.  An exhausted schedule while still
uninitialized means the loop would run forever: modelled as `none`. -/
def initLoop : List ClnAttemptOutcome → NodeState → InitTrace →
    Option (InitTrace × NodeState)
  | [], st, tr => if st.initialized then some (tr, st) else none
  | o :: rest, st, tr =>
    if st.initialized then some (tr, st)
    else
      let createNew := st.channel.isNone
      let st1 : NodeState :=
        if createNew then
          { st with channel := some st.nextChannelId,
                    cln_stub := some st.nextChannelId,
                    nextChannelId := st.nextChannelId + 1 }
        else st
      let tr1 : InitTrace :=
        { tr with getinfoCalls := tr.getinfoCalls + 1,
                  channelsCreated :=
                    tr.channelsCreated + (if createNew then 1 else 0) }
      match o with
      | ClnAttemptOutcome.ok =>
        some ({ tr1 with updates := tr1.updates ++ [⟨LnInitState.done, none⟩] },
              { st1 with initialized := true })
      | ClnAttemptOutcome.aioError d =>
        if hasSubstr d offlineDetail then
          let st2 := { st1 with channel := none }
          let tr2 :=
            { tr1 with
              updates := tr1.updates ++
                [⟨LnInitState.offline,
                  some "Unable to connect to CLN daemon, waiting..."⟩],
              sleeps := tr1.sleeps ++ [2],
              channelAtSleep := tr1.channelAtSleep ++ [st2.channel],
              stubAtSleep := tr1.stubAtSleep ++ [st2.cln_stub] }
          initLoop rest st2 tr2
        else some ({ tr1 with raised := some d }, st1)
      | ClnAttemptOutcome.otherExc _ => initLoop rest st1 tr1

/-- `LnNodeCLNgRPC.initialize` (source lines 116-186), one full
consumption of the generator.  If `self._initialized` is already set, a
single DONE update is yielded first (line 126; note there is no early
return).  Then the credentials are parsed — failure is `sys.exit(0)` —
and `self.creds` is assigned; finally the connection loop runs (it runs
zero iterations when already initialized). -/
def clnInitialize (cfg : ClnConfig) (st : NodeState)
    (outcomes : List ClnAttemptOutcome) : Option (InitTrace × NodeState) :=
  let pre : List InitLnRepoUpdate :=
    if st.initialized then [⟨LnInitState.done, none⟩] else []
  match parseClnCreds cfg with
  | none => some ({ InitTrace.empty with updates := pre, exited := true }, st)
  | some creds =>
    initLoop outcomes { st with creds := some creds }
      { InitTrace.empty with updates := pre }

/-- A concrete well-formed configuration used by concrete evaluations. -/
def cfg0 : ClnConfig := ⟨"00", "00", "00", "127.0.0.1", "9736"⟩

/-- The credentials `cfg0` parses to. -/
def creds0 : ClnCreds := ⟨[0], [0], [0], "127.0.0.1:9736"⟩

example : parseClnCreds cfg0 = some creds0 := by decide

example :
    clnInitialize cfg0 ⟨false, none, none, none, 0⟩
      [ClnAttemptOutcome.aioError offlineDetail,
       ClnAttemptOutcome.aioError offlineDetail,
       ClnAttemptOutcome.aioError offlineDetail,
       ClnAttemptOutcome.ok]
    = some
      (⟨[⟨LnInitState.offline, some "Unable to connect to CLN daemon, waiting..."⟩,
         ⟨LnInitState.offline, some "Unable to connect to CLN daemon, waiting..."⟩,
         ⟨LnInitState.offline, some "Unable to connect to CLN daemon, waiting..."⟩,
         ⟨LnInitState.done, none⟩],
        4, 4, [2, 2, 2], [none, none, none], [some 0, some 1, some 2],
        none, false⟩,
       ⟨true, some 3, some 3, some creds0, 4⟩) := by decide

/-! ## Error classifiers (`send_coins` lines 652-679, `connect_peer`
lines 846-880) -/

/-- A classified backend error as surfaced to the API layer: the HTTP
status code raised (`400` invalid argument, `412` precondition failed,
`500` internal, `504` timeout), the surfaced detail string, and whether
the original backend detail was written to the log before surfacing. -/
structure ClassifiedError where
  statusCode : Nat
  detail : String
  loggedOriginal : Bool
deriving DecidableEq, Repr

/-- Python `str.split(sep)` for a non-empty separator: non-overlapping,
left-to-right.  The `fuel` argument (always instantiated with the text's
length, which suffices since every step consumes at least one character)
makes the recursion structural; `cur` accumulates the current piece in
reverse. -/
def splitFuel (sep : List Char) : Nat → List Char → List Char →
    List (List Char)
  | 0, cur, s => [cur.reverse ++ s]
  | _ + 1, cur, [] => [cur.reverse]
  | fuel + 1, cur, c :: rest =>
    if matchesAt sep (c :: rest) then
      cur.reverse :: splitFuel sep fuel [] (List.drop (sep.length - 1) rest)
    else splitFuel sep fuel (c :: cur) rest

/-- Python `str.split(sep)` on strings (non-empty separator). -/
def pySplit (s sep : String) : List String :=
  (splitFuel sep.toList s.toList.length [] s.toList).map (fun l => ⟨l⟩)

/-- Python `str.replace(pat, repl)` for a non-empty pattern:
non-overlapping, left-to-right, all occurrences.  Fuel as in
`splitFuel`. -/
def replaceFuel (pat repl : List Char) : Nat → List Char → List Char
  | 0, s => s
  | _ + 1, [] => []
  | fuel + 1, c :: rest =>
    if matchesAt pat (c :: rest) then
      repl ++ replaceFuel pat repl fuel (List.drop (pat.length - 1) rest)
    else c :: replaceFuel pat repl fuel rest

/-- Python `str.replace` on strings (non-empty pattern). -/
def pyReplace (s pat repl : String) : String :=
  ⟨replaceFuel pat.toList repl.toList s.toList.length s.toList⟩

/-- `_extract_message` (source lines 99-101):
`details.split('message: "')[1].replace('" }', ".")`.  Returns `none`
when the split yields no second piece (Python raises `IndexError`). -/
def extractMessage? (details : String) : Option String :=
  match (pySplit details "message: \x22").get? 1 with
  | none => none
  | some t => some (pyReplace t "\x22 \x7d" ".")

/-- Modelled from the spec: `generic_grpc_error_handler` is imported from
`app/lightning/utils.py`, which is not part of the given source.  Per
spec §4.2 and §7 it is the generic fallback classifier: unmatched errors
classify as INTERNAL (HTTP 500) and must log the original detail before
surfacing it — never silently swallowed. -/
def genericGrpcErrorHandlerM (details : String) : ClassifiedError :=
  ⟨500, details, true⟩

/-- The `AioRpcError` handler of `send_coins` (source lines 652-679).
`logger.debug(details)` at the top logs the original detail on every
path.  Patterns are checked in source order; the final `else` delegates
to `generic_grpc_error_handler`. -/
def sendCoinsError (details : String) : ClassifiedError :=
  if hasSubstr details "Could not parse destination address" then
    ⟨400,
     "Could not parse destination address,  destination should be a valid address.",
     true⟩
  else if hasSubstr details "UTXO" && hasSubstr details "already reserved" then
    ⟨500,
     "Server tried to use a reserved UTXO. Please submit an issue to the BlitzAPI repository.",
     true⟩
  else if hasSubstr details "insufficient funds available" then
    ⟨412, details, true⟩
  else genericGrpcErrorHandlerM details

/-- The `AioRpcError` handler of `connect_peer` (source lines 846-880).
`logger.warning(details)` at the top logs the original detail on every
path.  Patterns in source order; the fallback raises 500 with the
original detail after `logger.exception(details)`.  The "All addresses
failed" branch runs `_extract_message`-like splitting inline; a detail
without a `message: "` part makes that branch crash with `IndexError`,
modelled as `none`. -/
def connectPeerError (details : String) : Option ClassifiedError :=
  if hasSubstr details "All addresses failed" then
    ((pySplit details "message: \x22").get? 1).map (fun m => ⟨400, m, true⟩)
  else if hasSubstr details "no address known for peer" then
    some ⟨400, "Connection establishment: No address known for peer", true⟩
  else if hasSubstr details "Connection timed out" then
    some ⟨504, "Connection establishment: Connection timed out.", true⟩
  else if hasSubstr details "Connection refused" then
    some ⟨504, "Connection establishment: Connection refused.", true⟩
  else some ⟨500, details, true⟩

/-- A detail string a real CLN daemon can produce on peer connect: the
transport wraps the timeout inside an "All addresses failed" envelope. -/
def timeoutEnvelopeDetail : String :=
  "All addresses failed. message: \x22Connection timed out\x22 \x7d"

example :
    connectPeerError timeoutEnvelopeDetail
    = some ⟨400, "Connection timed out\x22 \x7d", true⟩ := by decide

/-! ## Forwarding-event polling (`listen_forward_events`, lines 812-835) -/

/-- A settled forward record as returned by `ListForwards(status=1)`;
the polling loop never inspects its contents, only list positions, so
the payload is opaque. -/
structure ClnForward where
  payload : Nat
deriving DecidableEq, Repr

/-- `ForwardSuccessEvent.from_cln_grpc` (in `app.lightning.models`):
the per-record translation, modelled as the evident wrapper. -/
structure ForwardSuccessEvent where
  fwd : ClnForward
deriving DecidableEq, Repr

/-- Translate one forward record into the yielded event. -/
def forwardEventFrom (f : ClnForward) : ForwardSuccessEvent := ⟨f⟩

/-- One iteration of the polling loop body (source lines 828-834): fetch
the full settled-forward list; if its length exceeds the watermark
`num_fwd_last_poll`, yield the translated suffix `forwards[watermark:]`
in order and set the watermark to the new length; otherwise yield
nothing and keep the watermark. -/
def fwdPollStep (num_fwd_last_poll : Nat) (forwards : List ClnForward) :
    List ForwardSuccessEvent × Nat :=
  if forwards.length > num_fwd_last_poll then
    ((forwards.drop num_fwd_last_poll).map forwardEventFrom, forwards.length)
  else ([], num_fwd_last_poll)

/-- Run the polling loop over a finite schedule of fetched snapshots,
threading the watermark; returns the per-poll yields and the final
watermark. -/
def fwdRun : List (List ClnForward) → Nat →
    List (List ForwardSuccessEvent) × Nat
  | [], w => ([], w)
  | p :: ps, w =>
    let step := fwdPollStep w p
    let rest := fwdRun ps step.2
    (step.1 :: rest.1, rest.2)

/-- `LnNodeCLNgRPC.listen_forward_events` (source lines 812-835) over a
finite schedule: the initial fetch's length becomes the starting
watermark (lines 824-826), then the loop polls. -/
def listenForwardEvents (initial : List ClnForward)
    (polls : List (List ClnForward)) :
    List (List ForwardSuccessEvent) × Nat :=
  fwdRun polls initial.length

example :
    listenForwardEvents [⟨0⟩, ⟨1⟩, ⟨2⟩, ⟨3⟩, ⟨4⟩]
      [[⟨0⟩, ⟨1⟩, ⟨2⟩, ⟨3⟩, ⟨4⟩, ⟨5⟩, ⟨6⟩, ⟨7⟩]]
    = ([[⟨⟨5⟩⟩, ⟨⟨6⟩⟩, ⟨⟨7⟩⟩]], 8) := by decide

/-! ## `unlock_wallet` (source lines 768-774) -/

/-- `LnNodeCLNgRPC.unlock_wallet`: Core Lightning does not lock wallets,
so the method body is just `return True`.  The second component counts
backend RPCs issued (the body issues none). -/
def unlockWallet (password : String) : Bool × Nat := (true, 0)

/-! ## `send_coins` local precondition checks (source lines 596-650) -/

/-- A `ListFunds` output (UTXO) as read by `send_coins`: txid, output
number and amount in millisatoshi. -/
structure ClnOutput where
  txid : Nat
  output : Nat
  amount_msat : Nat
deriving DecidableEq, Repr

/-- The input of `send_coins` (`app.lightning.models.SendCoinsInput`),
restricted to the fields the method reads. -/
structure SendCoinsInput where
  amount : Int
  send_all : Bool
  address : String
  min_confs : Nat
  sat_per_vbyte : Option Int
  target_conf : Option Int
deriving DecidableEq, Repr

/-- The CLN fee-rate argument built by `send_coins` (source lines
600-608).  Note the source checks `target_conf >= 2` before
`target_conf >= 10`, so the `slow` branch is unreachable there. -/
inductive ClnFeerate
  | perkw (v : Int)
  | urgent
  | normal
  | slow
deriving DecidableEq, Repr

/-- Fee-rate selection of `send_coins` (source lines 600-608). -/
def sendCoinsFeeRate (input : SendCoinsInput) : Option ClnFeerate :=
  match input.sat_per_vbyte with
  | some v =>
    if v > 0 then some (ClnFeerate.perkw v)
    else sendCoinsFeeRateTC input
  | none => sendCoinsFeeRateTC input
where
  /-- The `target_conf` cascade of the fee-rate selection. -/
  sendCoinsFeeRateTC (input : SendCoinsInput) : Option ClnFeerate :=
    match input.target_conf with
    | some t =>
      if t = 1 then some ClnFeerate.urgent
      else if t ≥ 2 then some ClnFeerate.normal
      else if t ≥ 10 then some ClnFeerate.slow
      else none
    | none => none

/-- Sum of the wallet's UTXO values in satoshi, as the source computes
it: `max_amt += o.amount_msat.msat / 1000` — a true (non-integer)
division, modelled exactly over `ℚ`. -/
def sumUtxoSat (outputs : List ClnOutput) : ℚ :=
  outputs.foldl (fun acc o => acc + (o.amount_msat : ℚ) / 1000) 0

/-- Observable outcome of the happy-path `try` body of `send_coins`
(source lines 610-651): either one of the two local precondition
failures (HTTP 412, with the raised detail), or a `Withdraw` RPC is
issued to the backend with the assembled request. -/
inductive SendCoinsOutcome
  | preconditionNoUtxos (detail : String)
  | preconditionNotEnough (detail : String)
  | withdrawIssued (destination : String) (satoshiMsat : Option Int)
      (sendAll : Bool) (utxos : List (Nat × Nat)) (fee : Option ClnFeerate)
deriving DecidableEq, Repr

/-- The `try` body of `send_coins` (source lines 610-651) on an
already-fetched `ListFunds` result: raise 412 when there are no UTXOs at
all; collect the outpoints and sum the values; when not `send_all` and
the total is `≤` the requested amount, raise 412 "Not enough funds
available"; otherwise issue the `Withdraw` RPC. -/
def sendCoins (input : SendCoinsInput) (outputs : List ClnOutput) :
    SendCoinsOutcome :=
  let fee := sendCoinsFeeRate input
  if outputs.length = 0 then
    SendCoinsOutcome.preconditionNoUtxos
      ("Could not afford " ++ toString input.amount ++
       "sat. No UTXOs available at all")
  else
    let utxos := outputs.map (fun o => (o.txid, o.output))
    if input.send_all = false ∧ sumUtxoSat outputs ≤ (input.amount : ℚ) then
      SendCoinsOutcome.preconditionNotEnough
        ("Could not afford " ++ toString input.amount ++
         "sat. Not enough funds available")
    else
      SendCoinsOutcome.withdrawIssued input.address
        (if input.send_all then none else some (input.amount * 1000))
        input.send_all utxos fee

example :
    sendCoins ⟨5, false, "addr", 1, none, none⟩ [⟨1, 0, 5000⟩]
    = SendCoinsOutcome.preconditionNotEnough
        ("Could not afford " ++ toString (5 : Int) ++
         "sat. Not enough funds available") := by
  unfold sendCoins
  norm_num [sumUtxoSat]

/-! ## Helper lemmas -/

/-- The connection loop is a no-op when the node is already
initialized. -/
theorem initLoop_initialized (outcomes : List ClnAttemptOutcome)
    (st : NodeState) (tr : InitTrace) (h : st.initialized = true) :
    initLoop outcomes st tr = some (tr, st) := by
  cases outcomes <;> simp [initLoop, h]

/-- `assignIdx` preserves length. -/
theorem assignIdx_length (l : List GenericTx) :
    (assignIdx l).length = l.length := by
  simp [assignIdx]

/-- The element of `assignIdx l` at position `i` is the element of `l`
at position `i` with its `index` field set to `i`. -/
theorem assignIdx_getElem (l : List GenericTx) (i : Nat)
    (h1 : i < (assignIdx l).length) (h2 : i < l.length) :
    (assignIdx l)[i] = { l[i] with index := i } := by
  simp [assignIdx]

/-- Reversing an index-assigned list is the index-assignment of the
reversed list with every index flipped to `length - 1 - index`. -/
theorem assignIdx_reverse (l : List GenericTx) :
    (assignIdx l).reverse
      = (assignIdx l.reverse).map
          (fun t => { t with index := l.length - 1 - t.index }) := by
  apply List.ext_getElem
  · simp [assignIdx]
  · intro i h1 h2
    simp [assignIdx]

/-- With `max_tx = 0`, `list_all_tx` returns the pipeline's output from
the offset to the end. -/
theorem listAllTx_limit_zero (s rev : Bool) (off : Nat)
    (a b c : List GenericTx) :
    listAllTx s off 0 rev a b c = (listAllTxPipeline s rev a b c).drop off := by
  unfold listAllTx
  exact List.take_of_length_le (by simp)

/-! ## Claim theorems -/

/-- C1: the claim says `list_all_tx` with `successful_only=true` returns
only SUCCEEDED records.  The code violates this: both branches of the
filter append the record (the guarded branch appends and `continue`s,
the fall-through appends as well), so a record with status FAILED is
returned even with `successful_only=true`.  This evaluation exhibits the
failing input: one FAILED payment record, `successful_only=true`, which
the code returns instead of dropping. -/
theorem c1_filter_bug_eval :
    listAllTx true 0 0 false [] [] [⟨5, TxStatus.failed, 0, 9⟩]
      = [⟨5, TxStatus.failed, 0, 9⟩]
    ∧ TxStatus.failed ≠ TxStatus.succeeded := by decide

/-- C2 counterexample: with `limit=0`, `list_invoices` ignores the
offset — an offset (5) beyond the sequence length (2) returns the full
list, not the empty list — and `list_all_tx` with `limit=0` and
`offset=1` returns 1 record while the total available after filtering is
2, so the returned count does not equal the total. -/
theorem c2_counterexample :
    listInvoices false 5 0 false [⟨1, 1⟩, ⟨1, 2⟩] = [⟨1, 1⟩, ⟨1, 2⟩]
    ∧ listInvoices false 5 0 false [⟨1, 1⟩, ⟨1, 2⟩] ≠ []
    ∧ (listAllTx false 1 0 false
        [⟨1, TxStatus.succeeded, 0, 1⟩, ⟨2, TxStatus.succeeded, 0, 2⟩]
        [] []).length = 1
    ∧ (listAllTxPipeline false false
        [⟨1, TxStatus.succeeded, 0, 1⟩, ⟨2, TxStatus.succeeded, 0, 2⟩]
        [] []).length = 2 := by decide

/-- C2 amended: with `limit=0`, `list_all_tx` returns everything from
the offset to the end of the final ordered sequence (so its count is the
total minus the offset, and an offset beyond the length yields the empty
list), while `list_invoices` and `list_payments` ignore the offset
entirely and return the whole filtered (and possibly reversed) sequence,
so their count equals the total available after filtering regardless of
the offset. -/
theorem c2_limit_zero_amended (s rev p ic : Bool) (off : Nat)
    (a b c : List GenericTx) (inv : List ClnInvoiceRec)
    (ps : List ClnPayRec) :
    listAllTx s off 0 rev a b c = (listAllTxPipeline s rev a b c).drop off
    ∧ (listAllTx s off 0 rev a b c).length
        = (listAllTxPipeline s rev a b c).length - off
    ∧ listInvoices p off 0 rev inv = listInvoicesPipeline p rev inv
    ∧ listPayments ic off 0 rev ps = listPaymentsPipeline ic rev ps := by
  refine ⟨listAllTx_limit_zero s rev off a b c, ?_, rfl, rfl⟩
  rw [listAllTx_limit_zero s rev off a b c, List.length_drop]

/-- C3 counterexample: for three records with pairwise distinct
timestamps (one per source list), reversing the result of
`list_all_tx(reversed=False)` does not equal `list_all_tx(reversed=True)`
element-for-element: each call recomputes the 0-based `index` in its own
final order, so the index fields disagree. -/
theorem c3_counterexample :
    (listAllTx false 0 0 false [⟨1, TxStatus.succeeded, 0, 1⟩]
        [⟨2, TxStatus.succeeded, 0, 2⟩] [⟨3, TxStatus.succeeded, 0, 3⟩]).reverse
      ≠ listAllTx false 0 0 true [⟨1, TxStatus.succeeded, 0, 1⟩]
        [⟨2, TxStatus.succeeded, 0, 2⟩] [⟨3, TxStatus.succeeded, 0, 3⟩]
    ∧ List.Pairwise (fun x y => x ≠ y)
        [(1 : Int), 2, 3] := by decide

/-- C3 amended: with no offset and no limit, reversing the result of
`list_all_tx(reversed=False)` equals the result of
`list_all_tx(reversed=True)` element-for-element on every field except
`index`; the `index` fields are recomputed per call against each call's
own final order, so the element at position `j` of the reversed-forward
result carries index `n-1-j` where the reversed-call element carries
`j` — i.e. the reversed forward result is the reversed-call result with
every index flipped to `n - 1 - index`.  (This holds for every record
set, distinct timestamps or not, because both calls sort the same merged
list and the reversal is applied post-sort.) -/
theorem c3_reverse_amended (s : Bool) (a b c : List GenericTx) :
    (listAllTx s 0 0 false a b c).reverse
      = (listAllTx s 0 0 true a b c).map
          (fun t => { t with
            index := (listAllTx s 0 0 true a b c).length - 1 - t.index }) := by
  have hf : listAllTx s 0 0 false a b c
      = assignIdx (sortStable (appendFiltered s c
          (appendFiltered s b (appendFiltered s a [])))) := by
    rw [listAllTx_limit_zero]
    rfl
  have ht : listAllTx s 0 0 true a b c
      = assignIdx (sortStable (appendFiltered s c
          (appendFiltered s b (appendFiltered s a [])))).reverse := by
    rw [listAllTx_limit_zero]
    rfl
  rw [hf, ht]
  simp only [assignIdx_length, List.length_reverse]
  exact assignIdx_reverse _

/-- C4: calling `initialize()` again after READY (with the process's
configuration unchanged and valid, as it must be for READY to have been
reached) yields exactly one DONE lifecycle update and nothing else:
zero liveness RPCs, zero transport creations, no sleeps, no raised
error, and the instance state is returned unchanged (the body does
re-assign the credential attribute, but to the same parsed value). -/
theorem c4_initialize_idempotent (cfg : ClnConfig) (st : NodeState)
    (outcomes : List ClnAttemptOutcome) (creds : ClnCreds)
    (h1 : parseClnCreds cfg = some creds) (h2 : st.initialized = true)
    (h3 : st.creds = some creds) :
    clnInitialize cfg st outcomes
      = some ({ InitTrace.empty with updates := [⟨LnInitState.done, none⟩] },
              st) := by
  obtain ⟨ini, ch, stub, cr, nid⟩ := st
  simp only at h2 h3
  subst h2 h3
  simp [clnInitialize, h1, initLoop_initialized]

/-- Witness for C4 at a concrete valid configuration and an
already-initialized state. -/
theorem c4_initialize_idempotent_witness :
    (parseClnCreds cfg0 = some creds0
      ∧ (⟨true, none, none, some creds0, 0⟩ : NodeState).initialized = true
      ∧ (⟨true, none, none, some creds0, 0⟩ : NodeState).creds = some creds0)
    ∧ clnInitialize cfg0 ⟨true, none, none, some creds0, 0⟩
        [ClnAttemptOutcome.ok]
      = some ({ InitTrace.empty with updates := [⟨LnInitState.done, none⟩] },
              ⟨true, none, none, some creds0, 0⟩) :=
  ⟨⟨by decide, rfl, rfl⟩,
   c4_initialize_idempotent cfg0 ⟨true, none, none, some creds0, 0⟩
     [ClnAttemptOutcome.ok] creds0 (by decide) rfl rfl⟩

/-- C5: a daemon unreachable for exactly 3 consecutive liveness checks
(detail "failed to connect to all addresses") and then recovering makes
`initialize()` yield exactly 3 OFFLINE updates followed by one DONE,
with a 2-time-unit sleep after each OFFLINE and a fresh transport
channel created on each of the 4 attempts (the closed channel is set to
`None` at every sleep).  However, the claim's "discards the transport
handle (channel and stub)" fails on the stub: the source's
`self._channel = self.cln_stub = None` assigns `None` to a misspelled
attribute (`cln_stub` instead of `_cln_stub`), so at each backoff sleep
the `_cln_stub` field still holds the previous stub (`some k`, not
`none`), as the `stubAtSleep` component `[some 0, some 1, some 2]`
shows. -/
theorem c5_offline_cycle_eval :
    clnInitialize cfg0 ⟨false, none, none, none, 0⟩
      [ClnAttemptOutcome.aioError offlineDetail,
       ClnAttemptOutcome.aioError offlineDetail,
       ClnAttemptOutcome.aioError offlineDetail,
       ClnAttemptOutcome.ok]
    = some
      (⟨[⟨LnInitState.offline, some "Unable to connect to CLN daemon, waiting..."⟩,
         ⟨LnInitState.offline, some "Unable to connect to CLN daemon, waiting..."⟩,
         ⟨LnInitState.offline, some "Unable to connect to CLN daemon, waiting..."⟩,
         ⟨LnInitState.done, none⟩],
        4, 4, [2, 2, 2], [none, none, none], [some 0, some 1, some 2],
        none, false⟩,
       ⟨true, some 3, some 3, some creds0, 4⟩)
    ∧ ([some 0, some 1, some 2] : List (Option Nat)) ≠ [none, none, none] := by
  decide

/-- C6 counterexample: a liveness attempt failing with an exception that
is not a transport-refused `AioRpcError` (here a generic exception
"boom") is not fatal: the `except Exception` handler logs and swallows
it, the loop retries immediately, and initialization completes with a
single DONE update; nothing is surfaced to the caller (`raised = none`)
and a second liveness RPC is issued, contradicting "aborts
initialization, is surfaced to the caller, and the connection loop does
not keep retrying". -/
theorem c6_counterexample :
    clnInitialize cfg0 ⟨false, none, none, none, 0⟩
      [ClnAttemptOutcome.otherExc "boom", ClnAttemptOutcome.ok]
    = some (⟨[⟨LnInitState.done, none⟩], 2, 1, [], [], [], none, false⟩,
            ⟨true, some 0, some 0, some creds0, 1⟩) := by decide

/-- C6 amended: during connection attempts, an `AioRpcError` whose
detail does not contain "failed to connect to all addresses" is fatal —
the loop stops at once (the result does not depend on the rest of the
schedule), no update is yielded, and the error detail is re-raised to
the caller; but an exception that is not an `AioRpcError` is logged and
swallowed by the `except Exception` handler and the loop retries
immediately (no backoff sleep, no update), keeping the transport it
created.  Malformed credentials still terminate the process before any
attempt. -/
theorem c6_fatal_amended (cfg : ClnConfig) (creds : ClnCreds)
    (st : NodeState) (d m : String) (rest : List ClnAttemptOutcome)
    (tr : InitTrace)
    (h1 : parseClnCreds cfg = some creds) (h2 : st.initialized = false)
    (h3 : st.channel = none) (h4 : hasSubstr d offlineDetail = false) :
    clnInitialize cfg st (ClnAttemptOutcome.aioError d :: rest)
      = some ({ InitTrace.empty with
                  getinfoCalls := 1, channelsCreated := 1, raised := some d },
              ⟨false, some st.nextChannelId, some st.nextChannelId,
               some creds, st.nextChannelId + 1⟩)
    ∧ initLoop (ClnAttemptOutcome.otherExc m :: rest) st tr
      = initLoop rest
          { st with channel := some st.nextChannelId,
                    cln_stub := some st.nextChannelId,
                    nextChannelId := st.nextChannelId + 1 }
          { tr with getinfoCalls := tr.getinfoCalls + 1,
                    channelsCreated := tr.channelsCreated + 1 } := by
  obtain ⟨ini, ch, stub, cr, nid⟩ := st
  simp only at h2 h3
  subst h2 h3
  constructor
  · unfold clnInitialize
    rw [h1]
    simp [initLoop, h4, InitTrace.empty]
  · simp [initLoop]

/-- Witness for C6's amended claim at a concrete configuration, error
details, and trace. -/
theorem c6_fatal_amended_witness :
    (parseClnCreds cfg0 = some creds0
      ∧ (⟨false, none, none, none, 7⟩ : NodeState).initialized = false
      ∧ (⟨false, none, none, none, 7⟩ : NodeState).channel = none
      ∧ hasSubstr "boom" offlineDetail = false)
    ∧ (clnInitialize cfg0 ⟨false, none, none, none, 7⟩
        [ClnAttemptOutcome.aioError "boom"]
      = some ({ InitTrace.empty with
                  getinfoCalls := 1, channelsCreated := 1,
                  raised := some "boom" },
              ⟨false, some 7, some 7, some creds0, 8⟩)
      ∧ initLoop [ClnAttemptOutcome.otherExc "oops"]
          ⟨false, none, none, none, 7⟩ InitTrace.empty
        = initLoop [] ⟨false, some 7, some 7, none, 8⟩
            { InitTrace.empty with
                getinfoCalls := 1, channelsCreated := 1 }) :=
  ⟨⟨by decide, rfl, rfl, by decide⟩,
   c6_fatal_amended cfg0 creds0 ⟨false, none, none, none, 7⟩ "boom" "oops"
     [] InitTrace.empty (by decide) rfl rfl (by decide)⟩

/-- C7 counterexample: a backend detail can contain "Connection timed
out" and still not raise Timeout, because `connect_peer` checks its
patterns in order and "All addresses failed" — the envelope a real CLN
daemon wraps connect failures in — is checked first, raising HTTP 400
with the extracted message instead of HTTP 504. -/
theorem c7_counterexample :
    hasSubstr timeoutEnvelopeDetail "Connection timed out" = true
    ∧ connectPeerError timeoutEnvelopeDetail
        = some ⟨400, "Connection timed out\x22 \x7d", true⟩
    ∧ (connectPeerError timeoutEnvelopeDetail).map ClassifiedError.statusCode
        ≠ some 504 := by decide

/-- C7 amended: provided the detail matches no earlier-checked
operation-specific pattern, the classification holds as claimed: a
`send_coins` detail containing "insufficient funds available" (and not
the destination-address or reserved-UTXO patterns) raises
PreconditionFailed (HTTP 412) with the original detail; a `connect_peer`
detail containing "Connection timed out" (and not the
all-addresses-failed or no-address-known patterns) raises Timeout
(HTTP 504); and a detail matching none of the operation-specific
patterns is classified Internal (HTTP 500) with the original detail
logged and surfaced — through `generic_grpc_error_handler` for
`send_coins` and the inline fallback for `connect_peer`. -/
theorem c7_classification_amended (d1 d2 d3 d4 : String)
    (h1a : hasSubstr d1 "insufficient funds available" = true)
    (h1b : hasSubstr d1 "Could not parse destination address" = false)
    (h1c : hasSubstr d1 "UTXO" = false ∨ hasSubstr d1 "already reserved" = false)
    (h2a : hasSubstr d2 "Connection timed out" = true)
    (h2b : hasSubstr d2 "All addresses failed" = false)
    (h2c : hasSubstr d2 "no address known for peer" = false)
    (h3a : hasSubstr d3 "Could not parse destination address" = false)
    (h3b : hasSubstr d3 "UTXO" = false ∨ hasSubstr d3 "already reserved" = false)
    (h3c : hasSubstr d3 "insufficient funds available" = false)
    (h4a : hasSubstr d4 "All addresses failed" = false)
    (h4b : hasSubstr d4 "no address known for peer" = false)
    (h4c : hasSubstr d4 "Connection timed out" = false)
    (h4d : hasSubstr d4 "Connection refused" = false) :
    sendCoinsError d1 = ⟨412, d1, true⟩
    ∧ connectPeerError d2
        = some ⟨504, "Connection establishment: Connection timed out.", true⟩
    ∧ sendCoinsError d3 = genericGrpcErrorHandlerM d3
    ∧ sendCoinsError d3 = ⟨500, d3, true⟩
    ∧ connectPeerError d4 = some ⟨500, d4, true⟩ := by
  refine ⟨?_, ?_, ?_, ?_, ?_⟩
  · rcases h1c with h | h <;>
      simp [sendCoinsError, h1a, h1b, h]
  · simp [connectPeerError, h2a, h2b, h2c]
  · rcases h3b with h | h <;>
      simp [sendCoinsError, h3a, h3c, h]
  · rcases h3b with h | h <;>
      simp [sendCoinsError, genericGrpcErrorHandlerM, h3a, h3c, h]
  · simp [connectPeerError, h4a, h4b, h4c, h4d]

/-- Witness for C7's amended claim at concrete detail strings. -/
theorem c7_classification_amended_witness :
    (hasSubstr "insufficient funds available" "insufficient funds available"
        = true
      ∧ hasSubstr "Connection timed out" "Connection timed out" = true
      ∧ hasSubstr "weird backend error" "insufficient funds available" = false)
    ∧ (sendCoinsError "insufficient funds available"
        = ⟨412, "insufficient funds available", true⟩
      ∧ connectPeerError "Connection timed out"
        = some ⟨504, "Connection establishment: Connection timed out.", true⟩
      ∧ sendCoinsError "weird backend error"
        = genericGrpcErrorHandlerM "weird backend error"
      ∧ sendCoinsError "weird backend error"
        = ⟨500, "weird backend error", true⟩
      ∧ connectPeerError "weird backend error"
        = some ⟨500, "weird backend error", true⟩) :=
  ⟨⟨by decide, by decide, by decide⟩,
   c7_classification_amended "insufficient funds available"
     "Connection timed out" "weird backend error" "weird backend error"
     (by decide) (by decide) (Or.inl (by decide)) (by decide) (by decide)
     (by decide) (by decide) (Or.inl (by decide)) (by decide) (by decide)
     (by decide) (by decide) (by decide)⟩

/-- C8: the forwarding-event poll loop records the initial settled
count as its watermark, and on every poll where the new count exceeds
the watermark it yields exactly the translated suffix at index range
from the old count to the new count, in original order, then carries
the new count as watermark into the next poll; on any other poll it
yields nothing and keeps the watermark.  In particular a watermark
transition from 5 to 8 yields exactly the 3 new events in order and
leaves the watermark at 8. -/
theorem c8_forward_poll :
    (∀ (w : Nat) (fwds : List ClnForward), fwds.length > w →
        fwdPollStep w fwds = ((fwds.drop w).map forwardEventFrom, fwds.length))
    ∧ (∀ (w : Nat) (fwds : List ClnForward), ¬ fwds.length > w →
        fwdPollStep w fwds = ([], w))
    ∧ (∀ (initial : List ClnForward) (polls : List (List ClnForward)),
        listenForwardEvents initial polls = fwdRun polls initial.length)
    ∧ listenForwardEvents [⟨0⟩, ⟨1⟩, ⟨2⟩, ⟨3⟩, ⟨4⟩]
        [[⟨0⟩, ⟨1⟩, ⟨2⟩, ⟨3⟩, ⟨4⟩, ⟨5⟩, ⟨6⟩, ⟨7⟩]]
      = ([[⟨⟨5⟩⟩, ⟨⟨6⟩⟩, ⟨⟨7⟩⟩]], 8) := by
  refine ⟨?_, ?_, fun _ _ => rfl, by decide⟩
  · intro w fwds h
    simp [fwdPollStep, h]
  · intro w fwds h
    simp [fwdPollStep, h]

/-- Witness for C8 at the watermark-5, count-8 poll. -/
theorem c8_forward_poll_witness :
    ([(⟨0⟩ : ClnForward), ⟨1⟩, ⟨2⟩, ⟨3⟩, ⟨4⟩, ⟨5⟩, ⟨6⟩, ⟨7⟩].length > 5)
    ∧ fwdPollStep 5 [⟨0⟩, ⟨1⟩, ⟨2⟩, ⟨3⟩, ⟨4⟩, ⟨5⟩, ⟨6⟩, ⟨7⟩]
      = (([(⟨0⟩ : ClnForward), ⟨1⟩, ⟨2⟩, ⟨3⟩, ⟨4⟩, ⟨5⟩, ⟨6⟩, ⟨7⟩].drop 5).map
          forwardEventFrom,
         [(⟨0⟩ : ClnForward), ⟨1⟩, ⟨2⟩, ⟨3⟩, ⟨4⟩, ⟨5⟩, ⟨6⟩, ⟨7⟩].length) :=
  ⟨by decide,
   c8_forward_poll.1 5 [⟨0⟩, ⟨1⟩, ⟨2⟩, ⟨3⟩, ⟨4⟩, ⟨5⟩, ⟨6⟩, ⟨7⟩] (by decide)⟩

/-- C9: `unlock_wallet` returns `True` for every password, issues no
backend call (the RPC count of the body is 0), and never inspects the
password (it is a constant function): it can never fail or return
`False`. -/
theorem c9_unlock_wallet_trivial (p q : String) :
    unlockWallet p = (true, 0) ∧ unlockWallet p = unlockWallet q :=
  ⟨rfl, rfl⟩

/-- C10: with `send_all=false`, `send_coins` checks its preconditions
locally before any `Withdraw` RPC: an empty UTXO set raises HTTP 412
("No UTXOs available at all") regardless of the amount; a summed UTXO
value less than or equal to the requested amount — the boundary case of
exact equality included — raises HTTP 412 ("Not enough funds
available"); and in either case no `Withdraw` request is issued. -/
theorem c10_send_coins_precondition (input : SendCoinsInput)
    (outputs : List ClnOutput) (hsa : input.send_all = false) :
    (outputs = [] →
      sendCoins input outputs
        = SendCoinsOutcome.preconditionNoUtxos
            ("Could not afford " ++ toString input.amount ++
             "sat. No UTXOs available at all"))
    ∧ (outputs ≠ [] → sumUtxoSat outputs ≤ (input.amount : ℚ) →
        sendCoins input outputs
          = SendCoinsOutcome.preconditionNotEnough
              ("Could not afford " ++ toString input.amount ++
               "sat. Not enough funds available"))
    ∧ (outputs ≠ [] → sumUtxoSat outputs = (input.amount : ℚ) →
        sendCoins input outputs
          = SendCoinsOutcome.preconditionNotEnough
              ("Could not afford " ++ toString input.amount ++
               "sat. Not enough funds available"))
    ∧ (sumUtxoSat outputs ≤ (input.amount : ℚ) →
        ∀ (dest : String) (samt : Option Int) (sall : Bool)
          (utxos : List (Nat × Nat)) (fee : Option ClnFeerate),
          sendCoins input outputs
            ≠ SendCoinsOutcome.withdrawIssued dest samt sall utxos fee) := by
  have hlen : outputs ≠ [] → ¬ outputs.length = 0 := by
    intro h
    simpa using h
  refine ⟨?_, ?_, ?_, ?_⟩
  · intro h
    subst h
    simp [sendCoins]
  · intro h hle
    simp [sendCoins, hlen h, hsa, hle]
  · intro h heq
    simp [sendCoins, hlen h, hsa, le_of_eq heq]
  · intro hle dest samt sall utxos fee
    by_cases h : outputs = []
    · subst h
      simp [sendCoins]
    · simp [sendCoins, hlen h, hsa, hle]

/-- Witness for C10: the empty-UTXO case and the exact-boundary case
where the available total (5000 msat = 5 sat) equals the requested
amount (5 sat). -/
theorem c10_send_coins_precondition_witness :
    ((⟨5, false, "addr", 1, none, none⟩ : SendCoinsInput).send_all = false
      ∧ ([(⟨1, 0, 5000⟩ : ClnOutput)] ≠ [])
      ∧ sumUtxoSat [⟨1, 0, 5000⟩] = (((5 : Int) : ℚ)))
    ∧ (sendCoins ⟨5, false, "addr", 1, none, none⟩ []
        = SendCoinsOutcome.preconditionNoUtxos
            ("Could not afford " ++ toString (5 : Int) ++
             "sat. No UTXOs available at all")
      ∧ sendCoins ⟨5, false, "addr", 1, none, none⟩ [⟨1, 0, 5000⟩]
        = SendCoinsOutcome.preconditionNotEnough
            ("Could not afford " ++ toString (5 : Int) ++
             "sat. Not enough funds available")) :=
  ⟨⟨rfl, by decide, by norm_num [sumUtxoSat]⟩,
   (c10_send_coins_precondition ⟨5, false, "addr", 1, none, none⟩ [] rfl).1
     rfl,
   (c10_send_coins_precondition ⟨5, false, "addr", 1, none, none⟩
       [⟨1, 0, 5000⟩] rfl).2.2.1
     (by decide) (by norm_num [sumUtxoSat])⟩
